import Mathlib

/-!
Verification of the rideshare persistence layer (`model.py`).

The module defines three SQLAlchemy entities (`User`, `Trip`, `UserTrip`),
per-entity `to_json` serializers, a `connect_to_db` helper and an
`example_data` seeder.  We embed the data model shallowly: each table is a
Lean structure whose fields mirror the declared columns (nullable columns
become `Option`), the database is an explicit `DB` value holding the three
row lists together with the autoincrement counters, relationship access
(`self.user`, `self.trip`) is a lookup by foreign key returning `Option`,
and the serializers are pure functions producing association lists of JSON
values.  Inserting a row validates the `nullable=False` columns the way the
database would at commit time.
-/

namespace Rideshare

/-- JSON values as produced by the serializers: scalars plus (unused by this
code) nested objects, kept so that scalar-ness is a meaningful property. -/
inductive JVal where
  | jnull : JVal
  | jbool : Bool → JVal
  | jint : Int → JVal
  | jstr : String → JVal
  | jobj : List (String × JVal) → JVal

/-- A JSON value is scalar when it is not a nested object. -/
def JVal.isScalar : JVal → Bool
  | .jobj _ => false
  | _ => true

/-- A nullable string column serializes to its string or to JSON null. -/
def jstrO : Option String → JVal
  | none => .jnull
  | some s => .jstr s

/-- A calendar date as stored in a SQL `Date` column (the representable
range of a Python `datetime.date` is year 1..9999). -/
structure PDate where
  year : Nat
  month : Nat
  day : Nat

/-- The date ranges guaranteed by `datetime.date` / the SQL `Date` type. -/
def PDate.Valid (d : PDate) : Prop :=
  1 ≤ d.year ∧ d.year ≤ 9999 ∧ 1 ≤ d.month ∧ d.month ≤ 12 ∧ 1 ≤ d.day ∧ d.day ≤ 31

instance (d : PDate) : Decidable d.Valid :=
  inferInstanceAs (Decidable (1 ≤ d.year ∧ d.year ≤ 9999 ∧ 1 ≤ d.month ∧
    d.month ≤ 12 ∧ 1 ≤ d.day ∧ d.day ≤ 31))

/-- The decimal digit character for `n % 10`. -/
def digitChar (n : Nat) : Char := Char.ofNat (48 + n % 10)

/-- Zero-padded two-digit decimal rendering (strftime `%m` / `%d`). -/
def fmt2 (n : Nat) : String := ⟨[digitChar (n / 10), digitChar n]⟩

/-- Four-digit decimal rendering: the `%Y` output for years 1000..9999. -/
def fmt4 (n : Nat) : String :=
  ⟨[digitChar (n / 1000), digitChar (n / 100), digitChar (n / 10), digitChar n]⟩

/-- Model of strftime `%Y`: CPython delegates it to the platform C
library, which on glibc/BSD renders the year in UNPADDED decimal (a year
below 1000 yields fewer than four digits, e.g. 999 → "999").  Written as
a bounded case split, which agrees with unpadded decimal rendering on the
whole `datetime.date` year range 1..9999. -/
def fmtYear (n : Nat) : String :=
  if n < 10 then ⟨[digitChar n]⟩
  else if n < 100 then fmt2 n
  else if n < 1000 then ⟨[digitChar (n / 100), digitChar (n / 10), digitChar n]⟩
  else fmt4 n

/-- Model of `date.strftime('%Y-%m-%d')` as used by both serializers:
unpadded year, two-digit zero-padded month and day. -/
def PDate.strftimeYMD (d : PDate) : String :=
  fmtYear d.year ++ "-" ++ fmt2 d.month ++ "-" ++ fmt2 d.day

/-- Recognizer for strings of the shape `YYYY-MM-DD`: ten characters,
digits except for hyphens at positions 4 and 7. -/
def isYMDString (s : String) : Bool :=
  match s.data with
  | [y1, y2, y3, y4, h1, m1, m2, h2, d1, d2] =>
    y1.isDigit && y2.isDigit && y3.isDigit && y4.isDigit && h1 == '-' &&
    m1.isDigit && m2.isDigit && h2 == '-' && d1.isDigit && d2.isDigit
  | _ => false

/-- camelCase keys: nonempty, leading lowercase letter, alphanumeric
throughout (in particular no underscore). -/
def isCamelCase (s : String) : Bool :=
  match s.data with
  | [] => false
  | c :: cs => c.isLower && (c :: cs).all Char.isAlphanum

/-- Row of the `users` table: every non-key column is nullable. -/
structure User where
  user_id : Int
  email : Option String
  password : Option String
  fname : Option String
  lname : Option String
  user_gender : Option String
  user_bio : Option String
  user_profile_img : Option String
  user_social_media : Option String
  phone_number : Option Int

/-- Row of the `trips` table; `is_active` is the only nullable column. -/
structure Trip where
  trip_id : Int
  is_active : Option Bool
  date_of_trip : PDate
  time : String
  max_passengers : Int
  num_passengers : Int
  willing_to_stop : Bool
  trip_cost : Int
  user_id : Int
  origin : String
  destination : String
  distance_meters : Int
  display_distance : String

/-- Row of the `user_trips` join table. -/
structure UserTrip where
  user_trip_id : Int
  trip_id : Int
  user_id : Int

/-- The database state: the three tables plus autoincrement counters. -/
structure DB where
  users : List User
  trips : List Trip
  user_trips : List UserTrip
  next_user_id : Int
  next_trip_id : Int
  next_user_trip_id : Int

/-- Resolve a `users.user_id` foreign key (the ORM relationship access
`self.user`); `none` models the missing-row lookup failure. -/
def lookupUser (db : DB) (uid : Int) : Option User :=
  db.users.find? (fun u => u.user_id == uid)

/-- Resolve a `trips.trip_id` foreign key (the ORM relationship access
`self.trip`). -/
def lookupTrip (db : DB) (tid : Int) : Option Trip :=
  db.trips.find? (fun t => t.trip_id == tid)

/-- `User.to_json` from model.py lines 35-45: nine entries, including the
stored password hash, omitting `phone_number`. -/
def User.to_json (u : User) : List (String × JVal) :=
  [("user_id", .jint u.user_id),
   ("email", jstrO u.email),
   ("password", jstrO u.password),
   ("fname", jstrO u.fname),
   ("lname", jstrO u.lname),
   ("userGender", jstrO u.user_gender),
   ("userBio", jstrO u.user_bio),
   ("userProfileImg", jstrO u.user_profile_img),
   ("userSocialMedia", jstrO u.user_social_media)]

/-- `Trip.to_json` from model.py lines 77-94: formats the trip date and
flattens the owning driver's `fname` and `user_profile_img` into the
output; accessing `self.user` on a missing driver row fails (`none`). -/
def Trip.to_json (db : DB) (t : Trip) : Option (List (String × JVal)) :=
  (lookupUser db t.user_id).bind fun u =>
    some [("tripId", .jint t.trip_id),
          ("dateOfTrip", .jstr t.date_of_trip.strftimeYMD),
          ("maxPassengers", .jint t.max_passengers),
          ("numPassengers", .jint t.num_passengers),
          ("willingToStop", .jbool t.willing_to_stop),
          ("tripCost", .jint t.trip_cost),
          ("origin", .jstr t.origin),
          ("time", .jstr t.time),
          ("destination", .jstr t.destination),
          ("distanceMeters", .jint t.distance_meters),
          ("displayDistance", .jstr t.display_distance),
          ("userAsDriver", .jint t.user_id),
          ("userFirstName", jstrO u.fname),
          ("userProfileImg", jstrO u.user_profile_img)]

/-- `UserTrip.to_json` from model.py lines 120-139: denormalizes the
passenger (`self.user`) and the driver (`self.trip.user`) inline. -/
def UserTrip.to_json (db : DB) (ut : UserTrip) : Option (List (String × JVal)) :=
  (lookupTrip db ut.trip_id).bind fun t =>
    (lookupUser db ut.user_id).bind fun u =>
      (lookupUser db t.user_id).bind fun driver =>
        some [("userTripId", .jint ut.user_trip_id),
              ("tripId", .jint ut.trip_id),
              ("userId", .jint ut.user_id),
              ("dateOfTrip", .jstr t.date_of_trip.strftimeYMD),
              ("userFirstName", jstrO u.fname),
              ("userProfileImg", jstrO u.user_profile_img),
              ("userBio", jstrO u.user_bio),
              ("origin", .jstr t.origin),
              ("time", .jstr t.time),
              ("destination", .jstr t.destination),
              ("displayDistance", .jstr t.display_distance),
              ("distanceMeters", .jint t.distance_meters),
              ("numPassengers", .jint t.num_passengers),
              ("driverFirstName", jstrO driver.fname),
              ("driverProfileImg", jstrO driver.user_profile_img),
              ("driverBio", jstrO driver.user_bio)]

/-- A `Trip(...)` ORM object before commit: every column optional, unset
columns `none`; `num_passengers` carries the column default 0 if unset. -/
structure PendingTrip where
  is_active : Option Bool := none
  date_of_trip : Option PDate := none
  time : Option String := none
  max_passengers : Option Int := none
  num_passengers : Option Int := none
  willing_to_stop : Option Bool := none
  trip_cost : Option Int := none
  user_id : Option Int := none
  origin : Option String := none
  destination : Option String := none
  distance_meters : Option Int := none
  display_distance : Option String := none

/-- Committing a pending Trip row: the database accepts it only if every
`nullable=False` column has a value (otherwise the INSERT raises a
not-null violation); `num_passengers` falls back to its default 0. -/
def insertTrip (db : DB) (p : PendingTrip) : Option DB :=
  match p.date_of_trip, p.time, p.max_passengers, p.willing_to_stop, p.trip_cost,
        p.user_id, p.origin, p.destination, p.distance_meters, p.display_distance with
  | some dt, some tm, some mp, some ws, some tc, some uid, some o, some dst, some dm, some dd =>
    some { db with
           trips := db.trips ++
             [{ trip_id := db.next_trip_id, is_active := p.is_active,
                date_of_trip := dt, time := tm, max_passengers := mp,
                num_passengers := p.num_passengers.getD 0,
                willing_to_stop := ws, trip_cost := tc, user_id := uid,
                origin := o, destination := dst, distance_meters := dm,
                display_distance := dd }],
           next_trip_id := db.next_trip_id + 1 }
  | _, _, _, _, _, _, _, _, _, _ => none

/-- Enrolling a passenger: `session.add(UserTrip(trip_id=..., user_id=...))`
followed by commit.  Both `nullable=False` columns are supplied, so the
insert succeeds and appends one row with a fresh identifier.  The
`UserTrip` class declares no event hooks or triggers, so nothing else in
the database state is touched. -/
def insertUserTrip (db : DB) (tid uid : Int) : DB :=
  { db with
    user_trips := db.user_trips ++
      [{ user_trip_id := db.next_user_trip_id, trip_id := tid, user_id := uid }],
    next_user_trip_id := db.next_user_trip_id + 1 }

/-- `example_data` from model.py lines 154-183.  The bcrypt hash of the
placeholder password is an input (bcrypt draws a random salt outside this
module).  The `User(...)` call sets every column except `phone_number`;
the `Trip(...)` call sets every required column EXCEPT `time` (the source
passes no `time` keyword), sets `user_id` to the literal 1, and the string
literals `"11-13-2018"`, `"3"`, `"1"`, `"10"`, `"15422"` reach the
database as the date 2018-11-13 and the corresponding integers.  Both adds
are committed together, so a failed insert persists nothing (`none`). -/
def example_data (hashed_pw : String) (db : DB) : Option DB :=
  let user : User :=
    { user_id := db.next_user_id,
      email := some "jo@bama.com",
      password := some hashed_pw,
      fname := some "Jo",
      lname := some "Bama",
      user_gender := some "Female",
      user_bio := some "Friendly person",
      user_profile_img := some "https://robohash.org/enimsolutaqui.png?size=50x50&set=set1",
      user_social_media := some "twitter.com",
      phone_number := none }
  let db1 : DB :=
    { db with users := db.users ++ [user], next_user_id := db.next_user_id + 1 }
  insertTrip db1
    { date_of_trip := some ⟨2018, 11, 13⟩,
      max_passengers := some 3,
      num_passengers := some 1,
      willing_to_stop := some false,
      trip_cost := some 10,
      user_id := some 1,
      origin := some "San Francisco",
      destination := some "Los Angeles",
      distance_meters := some 15422,
      display_distance := some "13 mi" }

/-- The seeder as the spec describes it — identical except that the `time`
column is also populated, so the commit succeeds and one User row and one
Trip row are appended. -/
def example_data_intended (hashed_pw tm : String) (db : DB) : Option DB :=
  let user : User :=
    { user_id := db.next_user_id,
      email := some "jo@bama.com",
      password := some hashed_pw,
      fname := some "Jo",
      lname := some "Bama",
      user_gender := some "Female",
      user_bio := some "Friendly person",
      user_profile_img := some "https://robohash.org/enimsolutaqui.png?size=50x50&set=set1",
      user_social_media := some "twitter.com",
      phone_number := none }
  let db1 : DB :=
    { db with users := db.users ++ [user], next_user_id := db.next_user_id + 1 }
  insertTrip db1
    { date_of_trip := some ⟨2018, 11, 13⟩,
      time := some tm,
      max_passengers := some 3,
      num_passengers := some 1,
      willing_to_stop := some false,
      trip_cost := some 10,
      user_id := some 1,
      origin := some "San Francisco",
      destination := some "Los Angeles",
      distance_meters := some 15422,
      display_distance := some "13 mi" }

/-- Concrete driver for the scenario of §8: User(fname="Jo",
email="jo@bama.com", ...). -/
def joUser : User :=
  { user_id := 1,
    email := some "jo@bama.com",
    password := some "hash",
    fname := some "Jo",
    lname := some "Bama",
    user_gender := some "Female",
    user_bio := some "Friendly person",
    user_profile_img := some "https://robohash.org/enimsolutaqui.png?size=50x50&set=set1",
    user_social_media := some "twitter.com",
    phone_number := none }

/-- Concrete trip for the scenario of §8: San Francisco → Los Angeles,
max 3 passengers, 1 enrolled, owned by Jo. -/
def sfTrip : Trip :=
  { trip_id := 1,
    is_active := none,
    date_of_trip := ⟨2018, 11, 13⟩,
    time := "9:00",
    max_passengers := 3,
    num_passengers := 1,
    willing_to_stop := false,
    trip_cost := 10,
    user_id := 1,
    origin := "San Francisco",
    destination := "Los Angeles",
    distance_meters := 15422,
    display_distance := "13 mi" }

/-- Concrete passenger enrolled in `sfTrip`. -/
def alexUser : User :=
  { user_id := 2,
    email := some "alex@example.com",
    password := none,
    fname := some "Alex",
    lname := none,
    user_gender := none,
    user_bio := some "Hi",
    user_profile_img := some "img2.png",
    user_social_media := none,
    phone_number := none }

/-- Concrete enrollment of `alexUser` (passenger) in `sfTrip`. -/
def demoUserTrip : UserTrip :=
  { user_trip_id := 1, trip_id := 1, user_id := 2 }

/-- Store holding just the driver and the trip. -/
def demoDB : DB :=
  { users := [joUser], trips := [sfTrip], user_trips := [],
    next_user_id := 2, next_trip_id := 2, next_user_trip_id := 1 }

/-- Store holding the driver, the passenger, the trip and the enrollment. -/
def demoDB2 : DB :=
  { users := [joUser, alexUser], trips := [sfTrip], user_trips := [demoUserTrip],
    next_user_id := 3, next_trip_id := 2, next_user_trip_id := 2 }

/-- A row unrelated to `sfTrip` and `demoUserTrip`. -/
def extraUser : User :=
  { user_id := 99,
    email := none, password := none, fname := none, lname := none,
    user_gender := none, user_bio := none, user_profile_img := none,
    user_social_media := none, phone_number := none }

/-- `demoDB2` extended with an unrelated row: agrees with `demoDB2` on
every lookup the serializers of `sfTrip` and `demoUserTrip` perform. -/
def demoDB2ext : DB :=
  { demoDB2 with users := demoDB2.users ++ [extraUser], next_user_id := 100 }

/-- The serialized form of `sfTrip` in `demoDB`. -/
def tripJsonDemo : List (String × JVal) :=
  (Trip.to_json demoDB sfTrip).getD []

/-- The serialized form of `demoUserTrip` in `demoDB2`. -/
def userTripJsonDemo : List (String × JVal) :=
  (UserTrip.to_json demoDB2 demoUserTrip).getD []

/-- A trip dated in year 999 — a valid calendar date with a sub-four-digit
year. -/
def y999Trip : Trip :=
  { trip_id := 2,
    is_active := none,
    date_of_trip := ⟨999, 1, 1⟩,
    time := "8:00",
    max_passengers := 2,
    num_passengers := 0,
    willing_to_stop := true,
    trip_cost := 5,
    user_id := 1,
    origin := "A",
    destination := "B",
    distance_meters := 1000,
    display_distance := "1 km" }

/-- Store holding the driver and the year-999 trip. -/
def y999DB : DB :=
  { users := [joUser], trips := [y999Trip], user_trips := [],
    next_user_id := 2, next_trip_id := 3, next_user_trip_id := 1 }

/-- The serialized form of `y999Trip` in `y999DB`. -/
def y999Json : List (String × JVal) :=
  (Trip.to_json y999DB y999Trip).getD []

/-- Binding a present optional value reduces to applying the continuation. -/
theorem some_bind_reduce {α β : Type} (a : α) (f : α → Option β) :
    (some a).bind f = f a := rfl

/-- Binding an absent optional value short-circuits to `none`. -/
theorem none_bind_reduce {α β : Type} (f : α → Option β) :
    (none : Option α).bind f = none := rfl

/-- The serializers never emit a nested object for a nullable string. -/
theorem jstrO_isScalar (o : Option String) : (jstrO o).isScalar = true := by
  cases o <;> rfl

/-- Every character emitted by the date formatter's digit positions is a
decimal digit. -/
theorem digitChar_isDigit (n : Nat) : (digitChar n).isDigit = true := by
  have h : n % 10 < 10 := Nat.mod_lt n (by decide)
  have hall : ∀ k, k < 10 → (Char.ofNat (48 + k)).isDigit = true := by decide
  exact hall (n % 10) h

/-- For years of at least four digits, `%Y` renders exactly the four
digit characters. -/
theorem fmtYear_eq_fmt4 (n : Nat) (h : 1000 ≤ n) : fmtYear n = fmt4 n := by
  unfold fmtYear
  rw [if_neg (by omega), if_neg (by omega), if_neg (by omega)]

/-- The `strftime('%Y-%m-%d')` model produces a `YYYY-MM-DD` shaped
string whenever the year has four digits. -/
theorem strftimeYMD_shape (d : PDate) (h : 1000 ≤ d.year) :
    isYMDString d.strftimeYMD = true := by
  unfold PDate.strftimeYMD
  rw [fmtYear_eq_fmt4 d.year h]
  show ((((((((((digitChar (d.year / 1000)).isDigit &&
    (digitChar (d.year / 100)).isDigit) &&
    (digitChar (d.year / 10)).isDigit) &&
    (digitChar d.year).isDigit) && ('-' == '-')) &&
    (digitChar (d.month / 10)).isDigit) &&
    (digitChar d.month).isDigit) && ('-' == '-')) &&
    (digitChar (d.day / 10)).isDigit) &&
    (digitChar d.day).isDigit) = true
  simp [digitChar_isDigit]

/-- C1: serializing a Trip whose driver row exists flattens the driver's
first name and profile-image URL into the output under `userFirstName` and
`userProfileImg`, alongside the Trip's own `origin`, `destination`,
`maxPassengers` and `numPassengers` values. -/
theorem trip_to_json_flattens_driver (db : DB) (t : Trip) (u : User)
    (j : List (String × JVal))
    (hu : lookupUser db t.user_id = some u) (hj : Trip.to_json db t = some j) :
    ("userFirstName", jstrO u.fname) ∈ j ∧
    ("userProfileImg", jstrO u.user_profile_img) ∈ j ∧
    ("origin", JVal.jstr t.origin) ∈ j ∧
    ("destination", JVal.jstr t.destination) ∈ j ∧
    ("maxPassengers", JVal.jint t.max_passengers) ∈ j ∧
    ("numPassengers", JVal.jint t.num_passengers) ∈ j := by
  simp only [Trip.to_json, hu, some_bind_reduce] at hj
  injection hj with hj
  subst hj
  refine ⟨?_, ?_, ?_, ?_, ?_, ?_⟩ <;> simp

/-- C1 witness: the §8 scenario — a User with fname "Jo" owning a Trip
San Francisco → Los Angeles with 3 max and 1 current passengers serializes
to exactly those values under those keys. -/
theorem trip_to_json_flattens_driver_witness :
    ("userFirstName", JVal.jstr "Jo") ∈ tripJsonDemo ∧
    ("userProfileImg", JVal.jstr "https://robohash.org/enimsolutaqui.png?size=50x50&set=set1") ∈ tripJsonDemo ∧
    ("origin", JVal.jstr "San Francisco") ∈ tripJsonDemo ∧
    ("destination", JVal.jstr "Los Angeles") ∈ tripJsonDemo ∧
    ("maxPassengers", JVal.jint 3) ∈ tripJsonDemo ∧
    ("numPassengers", JVal.jint 1) ∈ tripJsonDemo :=
  trip_to_json_flattens_driver demoDB sfTrip joUser tripJsonDemo rfl rfl

/-- C2: for every User, `to_json` includes an entry whose value is the
stored password hash. -/
theorem user_to_json_includes_password (u : User) :
    ("password", jstrO u.password) ∈ User.to_json u :=
  List.Mem.tail _ (List.Mem.tail _ (List.Mem.head _))

/-- C3 counterexample: the trip dated year 999 — a valid calendar date —
serializes its date as "999-01-01" (glibc/BSD `%Y` leaves years below
1000 unpadded), and that unique `dateOfTrip` entry is not of the form
`YYYY-MM-DD`, refuting the four-digit-year guarantee for every calendar
date. -/
theorem serialized_date_counterexample :
    PDate.Valid ⟨999, 1, 1⟩ ∧
    PDate.strftimeYMD ⟨999, 1, 1⟩ = "999-01-01" ∧
    Trip.to_json y999DB y999Trip = some y999Json ∧
    y999Json.filter (fun kv => kv.1 == "dateOfTrip") =
      [("dateOfTrip", JVal.jstr "999-01-01")] ∧
    isYMDString "999-01-01" = false :=
  ⟨by decide, rfl, rfl, rfl, by decide⟩

/-- C3 (amended): serializing a Trip, or a UserTrip, whose date-of-trip
holds a calendar date with a four-digit year (1000 ≤ year) yields a
`dateOfTrip` entry that is a string of the form `YYYY-MM-DD`; for earlier
years the year portion is rendered unpadded. -/
theorem serialized_date_is_ymd_amended :
    (∀ (db : DB) (t : Trip) (j : List (String × JVal)), t.date_of_trip.Valid →
        1000 ≤ t.date_of_trip.year →
        Trip.to_json db t = some j →
        ("dateOfTrip", JVal.jstr t.date_of_trip.strftimeYMD) ∈ j ∧
        isYMDString t.date_of_trip.strftimeYMD = true) ∧
    (∀ (db : DB) (ut : UserTrip) (t : Trip) (k : List (String × JVal)),
        lookupTrip db ut.trip_id = some t → t.date_of_trip.Valid →
        1000 ≤ t.date_of_trip.year →
        UserTrip.to_json db ut = some k →
        ("dateOfTrip", JVal.jstr t.date_of_trip.strftimeYMD) ∈ k ∧
        isYMDString t.date_of_trip.strftimeYMD = true) := by
  constructor
  · intro db t j _ hy hj
    cases hu : lookupUser db t.user_id with
    | none =>
      simp only [Trip.to_json, hu, none_bind_reduce] at hj
      exact Option.noConfusion hj
    | some u =>
      simp only [Trip.to_json, hu, some_bind_reduce] at hj
      injection hj with hj
      subst hj
      exact ⟨by simp, strftimeYMD_shape _ hy⟩
  · intro db ut t k ht _ hy hk
    cases hp : lookupUser db ut.user_id with
    | none =>
      simp only [UserTrip.to_json, ht, hp, some_bind_reduce, none_bind_reduce] at hk
      exact Option.noConfusion hk
    | some p =>
      cases hd : lookupUser db t.user_id with
      | none =>
        simp only [UserTrip.to_json, ht, hp, hd, some_bind_reduce, none_bind_reduce] at hk
        exact Option.noConfusion hk
      | some d0 =>
        simp only [UserTrip.to_json, ht, hp, hd, some_bind_reduce] at hk
        injection hk with hk
        subst hk
        exact ⟨by simp, strftimeYMD_shape _ hy⟩

/-- C3 witness: the date 2018-11-13 of the demo trip (year 2018 has four
digits) serializes to the `YYYY-MM-DD` string "2018-11-13" in both the
Trip and the UserTrip payloads. -/
theorem serialized_date_is_ymd_amended_witness :
    (("dateOfTrip", JVal.jstr "2018-11-13") ∈ tripJsonDemo ∧
      isYMDString "2018-11-13" = true) ∧
    (("dateOfTrip", JVal.jstr "2018-11-13") ∈ userTripJsonDemo ∧
      isYMDString "2018-11-13" = true) :=
  ⟨serialized_date_is_ymd_amended.1 demoDB sfTrip tripJsonDemo (by decide)
      (by decide) rfl,
   serialized_date_is_ymd_amended.2 demoDB2 demoUserTrip sfTrip userTripJsonDemo
      rfl (by decide) (by decide) rfl⟩

/-- C4 counterexample: `User.to_json` emits the key `"user_id"`, which is
snake_case (contains an underscore), not camelCase — refuting the claim
that all keys of all three serializers are camelCase. -/
theorem serialization_keys_counterexample :
    ("user_id", JVal.jint 1) ∈ User.to_json joUser ∧ isCamelCase "user_id" = false :=
  ⟨List.Mem.head _, by decide⟩

/-- C4 (amended): every value emitted by the three serializers is scalar;
every key of `Trip.to_json` and `UserTrip.to_json` is camelCase; every key
of `User.to_json` is camelCase except `"user_id"`, which is snake_case. -/
theorem serialization_keys_values_amended :
    (∀ (u : User) (kv : String × JVal), kv ∈ User.to_json u →
        kv.2.isScalar = true ∧ (kv.1 = "user_id" ∨ isCamelCase kv.1 = true)) ∧
    (∀ (db : DB) (t : Trip) (j : List (String × JVal)) (kv : String × JVal),
        Trip.to_json db t = some j → kv ∈ j →
        isCamelCase kv.1 = true ∧ kv.2.isScalar = true) ∧
    (∀ (db : DB) (ut : UserTrip) (j : List (String × JVal)) (kv : String × JVal),
        UserTrip.to_json db ut = some j → kv ∈ j →
        isCamelCase kv.1 = true ∧ kv.2.isScalar = true) := by
  refine ⟨?_, ?_, ?_⟩
  · intro u kv hkv
    simp only [User.to_json, List.mem_cons, List.not_mem_nil, or_false] at hkv
    rcases hkv with rfl | rfl | rfl | rfl | rfl | rfl | rfl | rfl | rfl <;>
      first
        | exact ⟨rfl, Or.inl rfl⟩
        | exact ⟨jstrO_isScalar _, Or.inr rfl⟩
  · intro db t j kv hj hkv
    cases hu : lookupUser db t.user_id with
    | none =>
      simp only [Trip.to_json, hu, none_bind_reduce] at hj
      exact Option.noConfusion hj
    | some u =>
      simp only [Trip.to_json, hu, some_bind_reduce] at hj
      injection hj with hj
      subst hj
      simp only [List.mem_cons, List.not_mem_nil, or_false] at hkv
      rcases hkv with rfl | rfl | rfl | rfl | rfl | rfl | rfl | rfl | rfl | rfl | rfl | rfl | rfl | rfl <;>
        first
          | exact ⟨rfl, rfl⟩
          | exact ⟨rfl, jstrO_isScalar _⟩
  · intro db ut j kv hj hkv
    cases ht : lookupTrip db ut.trip_id with
    | none =>
      simp only [UserTrip.to_json, ht, none_bind_reduce] at hj
      exact Option.noConfusion hj
    | some t =>
      cases hp : lookupUser db ut.user_id with
      | none =>
        simp only [UserTrip.to_json, ht, hp, some_bind_reduce, none_bind_reduce] at hj
        exact Option.noConfusion hj
      | some p =>
        cases hd : lookupUser db t.user_id with
        | none =>
          simp only [UserTrip.to_json, ht, hp, hd, some_bind_reduce, none_bind_reduce] at hj
          exact Option.noConfusion hj
        | some d0 =>
          simp only [UserTrip.to_json, ht, hp, hd, some_bind_reduce] at hj
          injection hj with hj
          subst hj
          simp only [List.mem_cons, List.not_mem_nil, or_false] at hkv
          rcases hkv with rfl | rfl | rfl | rfl | rfl | rfl | rfl | rfl | rfl | rfl | rfl | rfl | rfl | rfl | rfl | rfl <;>
            first
              | exact ⟨rfl, rfl⟩
              | exact ⟨rfl, jstrO_isScalar _⟩

/-- C4 witness: a concrete entry of each serializer satisfies the amended
contract — `email` (string value) for User, `tripId` and `userTripId`
(integer values) for Trip and UserTrip. -/
theorem serialization_keys_values_amended_witness :
    (JVal.isScalar (JVal.jstr "jo@bama.com") = true ∧
      ("email" = "user_id" ∨ isCamelCase "email" = true)) ∧
    (isCamelCase "tripId" = true ∧ JVal.isScalar (JVal.jint 1) = true) ∧
    (isCamelCase "userTripId" = true ∧ JVal.isScalar (JVal.jint 1) = true) :=
  ⟨serialization_keys_values_amended.1 joUser ("email", JVal.jstr "jo@bama.com")
      (List.Mem.tail _ (List.Mem.head _)),
   serialization_keys_values_amended.2.1 demoDB sfTrip tripJsonDemo
      ("tripId", JVal.jint 1) rfl (List.Mem.head _),
   serialization_keys_values_amended.2.2 demoDB2 demoUserTrip userTripJsonDemo
      ("userTripId", JVal.jint 1) rfl (List.Mem.head _)⟩

/-- C5: serializing a UserTrip whose passenger, trip and driver rows all
exist denormalizes the passenger's first name and profile image under
`userFirstName`/`userProfileImg` and the driver's under
`driverFirstName`/`driverProfileImg`. -/
theorem usertrip_to_json_denormalizes (db : DB) (ut : UserTrip) (t : Trip)
    (p d : User) (j : List (String × JVal))
    (ht : lookupTrip db ut.trip_id = some t)
    (hp : lookupUser db ut.user_id = some p)
    (hd : lookupUser db t.user_id = some d)
    (hj : UserTrip.to_json db ut = some j) :
    ("userFirstName", jstrO p.fname) ∈ j ∧
    ("userProfileImg", jstrO p.user_profile_img) ∈ j ∧
    ("driverFirstName", jstrO d.fname) ∈ j ∧
    ("driverProfileImg", jstrO d.user_profile_img) ∈ j := by
  simp only [UserTrip.to_json, ht, hp, hd, some_bind_reduce] at hj
  injection hj with hj
  subst hj
  refine ⟨?_, ?_, ?_, ?_⟩ <;> simp

/-- C5 witness: with passenger Alex enrolled in Jo's trip, the payload
carries Alex's name and image as user fields and Jo's as driver fields. -/
theorem usertrip_to_json_denormalizes_witness :
    ("userFirstName", JVal.jstr "Alex") ∈ userTripJsonDemo ∧
    ("userProfileImg", JVal.jstr "img2.png") ∈ userTripJsonDemo ∧
    ("driverFirstName", JVal.jstr "Jo") ∈ userTripJsonDemo ∧
    ("driverProfileImg", JVal.jstr "https://robohash.org/enimsolutaqui.png?size=50x50&set=set1") ∈ userTripJsonDemo :=
  usertrip_to_json_denormalizes demoDB2 demoUserTrip sfTrip alexUser joUser
    userTripJsonDemo rfl rfl rfl rfl

/-- C6: the seeder as written never persists anything — the `Trip(...)`
call omits the required `time` column, so the single commit fails with a
not-null violation on every invocation, against the documented intent of
providing example rows. -/
theorem example_data_commit_fails (pw : String) (db : DB) :
    example_data pw db = none := rfl

/-- C6 (intended seeder): had `time` been supplied, each invocation would
append exactly one User row and one Trip row, and two invocations would
append two of each with distinct fresh identifiers. -/
theorem example_data_intended_not_idempotent (pw1 pw2 tm1 tm2 : String) (db : DB)
    (db1 db2 : DB)
    (h1 : example_data_intended pw1 tm1 db = some db1)
    (h2 : example_data_intended pw2 tm2 db1 = some db2) :
    db1.users.length = db.users.length + 1 ∧
    db1.trips.length = db.trips.length + 1 ∧
    db2.users.length = db.users.length + 2 ∧
    db2.trips.length = db.trips.length + 2 ∧
    (∃ u1 u2 : User, db2.users = db.users ++ [u1, u2] ∧ u1.user_id ≠ u2.user_id ∧
      u1.email = u2.email) ∧
    (∃ t1 t2 : Trip, db2.trips = db.trips ++ [t1, t2] ∧ t1.trip_id ≠ t2.trip_id) := by
  injection h1 with h1
  subst h1
  injection h2 with h2
  subst h2
  refine ⟨by simp, by simp, by simp, by simp, ?_, ?_⟩
  · refine
      ⟨{ user_id := db.next_user_id, email := some "jo@bama.com",
         password := some pw1, fname := some "Jo", lname := some "Bama",
         user_gender := some "Female", user_bio := some "Friendly person",
         user_profile_img := some "https://robohash.org/enimsolutaqui.png?size=50x50&set=set1",
         user_social_media := some "twitter.com", phone_number := none },
       { user_id := db.next_user_id + 1, email := some "jo@bama.com",
         password := some pw2, fname := some "Jo", lname := some "Bama",
         user_gender := some "Female", user_bio := some "Friendly person",
         user_profile_img := some "https://robohash.org/enimsolutaqui.png?size=50x50&set=set1",
         user_social_media := some "twitter.com", phone_number := none },
       by simp, ?_, rfl⟩
    show db.next_user_id ≠ db.next_user_id + 1
    omega
  · refine
      ⟨{ trip_id := db.next_trip_id, is_active := none,
         date_of_trip := ⟨2018, 11, 13⟩, time := tm1, max_passengers := 3,
         num_passengers := 1, willing_to_stop := false, trip_cost := 10,
         user_id := 1, origin := "San Francisco", destination := "Los Angeles",
         distance_meters := 15422, display_distance := "13 mi" },
       { trip_id := db.next_trip_id + 1, is_active := none,
         date_of_trip := ⟨2018, 11, 13⟩, time := tm2, max_passengers := 3,
         num_passengers := 1, willing_to_stop := false, trip_cost := 10,
         user_id := 1, origin := "San Francisco", destination := "Los Angeles",
         distance_meters := 15422, display_distance := "13 mi" },
       by simp, ?_⟩
    show db.next_trip_id ≠ db.next_trip_id + 1
    omega

/-- C7: enrolling a passenger (inserting a UserTrip row) leaves the trips
table — in particular every Trip's `num_passengers` — unchanged. -/
theorem insert_usertrip_preserves_trips (db : DB) (tid uid : Int) :
    (insertUserTrip db tid uid).trips = db.trips ∧
    ∀ i : Int, (lookupTrip (insertUserTrip db tid uid) i).map Trip.num_passengers =
      (lookupTrip db i).map Trip.num_passengers :=
  ⟨rfl, fun _ => rfl⟩

/-- C8: the serializers are pure projections — the output depends only on
the serialized row and the rows its foreign keys resolve to: two database
states agreeing on those lookups produce identical payloads (and in this
state-passing model a serializer returns no updated state at all). -/
theorem to_json_reads_only :
    (∀ (db db' : DB) (t : Trip),
        lookupUser db t.user_id = lookupUser db' t.user_id →
        Trip.to_json db t = Trip.to_json db' t) ∧
    (∀ (db db' : DB) (ut : UserTrip),
        lookupTrip db ut.trip_id = lookupTrip db' ut.trip_id →
        lookupUser db ut.user_id = lookupUser db' ut.user_id →
        (∀ t : Trip, lookupTrip db ut.trip_id = some t →
          lookupUser db t.user_id = lookupUser db' t.user_id) →
        UserTrip.to_json db ut = UserTrip.to_json db' ut) := by
  constructor
  · intro db db' t h
    unfold Trip.to_json
    rw [h]
  · intro db db' ut ht hu hd
    unfold UserTrip.to_json
    rw [← ht, ← hu]
    cases h1 : lookupTrip db ut.trip_id with
    | none => rfl
    | some t =>
      simp only [some_bind_reduce]
      cases h2 : lookupUser db ut.user_id with
      | none => rfl
      | some p =>
        simp only [some_bind_reduce]
        rw [← hd t h1]

/-- C8 witness: adding an unrelated User row to the store changes neither
the Trip payload nor the UserTrip payload. -/
theorem to_json_reads_only_witness :
    Trip.to_json demoDB2 sfTrip = Trip.to_json demoDB2ext sfTrip ∧
    UserTrip.to_json demoDB2 demoUserTrip = UserTrip.to_json demoDB2ext demoUserTrip :=
  ⟨to_json_reads_only.1 demoDB2 demoDB2ext sfTrip rfl,
   to_json_reads_only.2 demoDB2 demoDB2ext demoUserTrip rfl rfl
     (fun t h => by
        have h2 : some sfTrip = some t := h
        cases h2
        rfl)⟩

/-- C9: the Trip payload carries no entry for the `is_active` column,
under neither a camelCase nor a snake_case key. -/
theorem trip_to_json_omits_is_active (db : DB) (t : Trip)
    (j : List (String × JVal)) (hj : Trip.to_json db t = some j) :
    "isActive" ∉ j.map Prod.fst ∧ "is_active" ∉ j.map Prod.fst := by
  cases hu : lookupUser db t.user_id with
  | none =>
    simp only [Trip.to_json, hu, none_bind_reduce] at hj
    exact Option.noConfusion hj
  | some u =>
    simp only [Trip.to_json, hu, some_bind_reduce] at hj
    injection hj with hj
    subst hj
    constructor <;> simp

/-- C9 witness: the demo trip's payload has no active-flag key. -/
theorem trip_to_json_omits_is_active_witness :
    "isActive" ∉ tripJsonDemo.map Prod.fst ∧ "is_active" ∉ tripJsonDemo.map Prod.fst :=
  trip_to_json_omits_is_active demoDB sfTrip tripJsonDemo rfl

/-- C10: the User payload omits the `phone_number` column entirely, while
(in contrast) it does include the password hash. -/
theorem user_to_json_omits_phone (u : User) :
    "phoneNumber" ∉ (User.to_json u).map Prod.fst ∧
    "phone_number" ∉ (User.to_json u).map Prod.fst ∧
    ("password", jstrO u.password) ∈ User.to_json u := by
  refine ⟨?_, ?_, ?_⟩
  · simp [User.to_json]
  · simp [User.to_json]
  · exact List.Mem.tail _ (List.Mem.tail _ (List.Mem.head _))

end Rideshare
